import Mathlib

set_option maxRecDepth 100000

/-!
Verification of the ai-chat provider/streaming core against its source.

The Python modules embedded here (shallowly, as pure Lean functions):
  * `src/ai_chat/providers/base.py`              — `Message`, `StreamChunk`, error taxonomy
  * `src/ai_chat/providers/bedrock.py`           — `BedrockProvider._process_stream`,
                                                   error-code mapping, `supports_feature`
  * `src/ai_chat/providers/openai_compatible.py` — `_parse_sse_stream`,
                                                   `_detect_image_format`, `supports_feature`
  * `src/ai_chat/services/chat.py`               — `ChatService.stream_response`,
                                                   `set_model`, `set_agent`, `get_history`

Conventions: Python byte strings are `List Nat` (one entry per byte, < 256 at
call sites); Python `str` values that the code slices and compares are `List
Char` internally with `String` at the boundary; fallible Python code returns
`Except`/pairs with an error component; async generators become functions from
their (oracle) input stream to the list of yielded chunks plus an optional
propagated exception.
-/

namespace AiChat

/-- `StreamChunk` dataclass from `providers/base.py`: one increment of a
streamed response. -/
structure StreamChunk where
  content : String := ""
  reasoning : String := ""
  is_reasoning : Bool := false
  done : Bool := false
deriving DecidableEq

/-- The chunk `StreamChunk(done=True)`. -/
def doneChunk : StreamChunk := { done := true }

/-! ## Bedrock stream demultiplexing (`BedrockProvider._process_stream`) -/

/-- Classification recorded for a content block: the values `"reasoning"` /
`"text"` stored in `content_block_types` in `_process_stream`. -/
inductive BlockKind where
  | text
  | reasoning
deriving DecidableEq

/-- The `content_block_types` dict, keyed by content block index.  Python dict
assignment is modelled by prepending; lookup takes the first (most recent)
binding. -/
def BlockKindMap : Type := List (Nat × BlockKind)

/-- `content_block_types.get(i)`. -/
def lookupKind (m : BlockKindMap) (i : Nat) : Option BlockKind :=
  (m.find? (fun p => p.1 = i)).map (fun p => p.2)

/-- One wire event of the Bedrock `converse_stream` response, restricted to the
fields `_process_stream` inspects.  `contentBlockStart` carries the block index
(`contentBlockIndex`, absent modelled as the default `0`), whether a `start`
payload is present, and the outcome of the reasoning test the code applies to
that payload (`"thinkingContent" in start_data or "reasoning" in
str(start_data).lower()`).  `contentBlockDelta` carries the block index and the
optional `"text"` field of the delta.  `metadata` carries the optional
`"stopReason"` value, `messageStop` and `errorEvent` are the events of the same
name, and `other` stands for any event with an unrecognized key. -/
inductive BedrockEvent where
  | contentBlockStart (index : Nat) (hasStart : Bool) (startIsReasoning : Bool)
  | contentBlockDelta (index : Nat) (text : Option String)
  | metadata (stopReason : Option String)
  | messageStop
  | errorEvent (message : String)
  | other
deriving DecidableEq

/-- Update of `content_block_types` performed by one event: only a
`contentBlockStart` whose `start` payload is present records a classification
(`_process_stream` lines 219-231). -/
def stepMap (m : BlockKindMap) : BedrockEvent → BlockKindMap
  | .contentBlockStart i true r => (i, if r then .reasoning else .text) :: m
  | _ => m

/-- Chunks yielded for one (non-error) event given the current
`content_block_types` map (`_process_stream` lines 233-273). -/
def emitEvent (m : BlockKindMap) : BedrockEvent → List StreamChunk
  | .contentBlockDelta i (some t) =>
      if lookupKind m i = some .reasoning then
        [{ reasoning := t, is_reasoning := true }]
      else
        [{ content := t }]
  | .contentBlockDelta _ none => []
  | .metadata (some _) => [doneChunk]
  | .metadata none => []
  | .messageStop => [doneChunk]
  | _ => []

/-- Whether an event is the `error` event (which raises `ProviderError`). -/
def isErrorEvent : BedrockEvent → Bool
  | .errorEvent _ => true
  | _ => false

/-- The event loop of `_process_stream`: yields chunks event by event,
threading `content_block_types`; an `error` event raises (second component)
and nothing is yielded past it. -/
def runStreamAux (m : BlockKindMap) : List BedrockEvent → List StreamChunk × Option String
  | [] => ([], none)
  | .errorEvent msg :: _ => ([], some msg)
  | e :: rest =>
      let r := runStreamAux (stepMap m e) rest
      (emitEvent m e ++ r.1, r.2)

/-- `_process_stream` on a full wire event sequence, starting from the empty
`content_block_types` dict. -/
def processStream (events : List BedrockEvent) : List StreamChunk × Option String :=
  runStreamAux [] events

/-- The `content_block_types` map accumulated over a prefix of the event
sequence. -/
def kindsAfter (events : List BedrockEvent) : BlockKindMap :=
  events.foldl stepMap []

/-! ## Bedrock vendor error-code mapping (`BedrockProvider.stream_chat`) -/

/-- The provider error taxonomy of `providers/base.py` (`AuthenticationError`,
`ConnectionError` and `RateLimitError` are subclasses of `ProviderError`; here
we record which concrete class is raised). -/
inductive ProviderErrorKind where
  | providerError
  | authenticationError
  | connectionError
  | rateLimitError
deriving DecidableEq

/-- An exception raised by a provider: its concrete class and its message. -/
structure RaisedError where
  kind : ProviderErrorKind
  msg : String
deriving DecidableEq

/-- The `ClientError` handler of `BedrockProvider.stream_chat` (bedrock.py
lines 120-142): `name` is `config.name`, `model_id` the resolved model id,
`code`/`message` the vendor error code and message from `e.response`. -/
def map_client_error (name model_id code message : String) : RaisedError :=
  if code = "UnrecognizedClientException" ∨ code = "InvalidSignatureException" then
    { kind := .authenticationError
      msg := "AWS authentication failed for " ++ name ++ ". Please check your credentials." }
  else if code = "ThrottlingException" then
    { kind := .rateLimitError
      msg := "Rate limit exceeded for " ++ name ++ ". Please try again later." }
  else if code = "AccessDeniedException" ∨ code = "ResourceNotFoundException" then
    { kind := .authenticationError
      msg := "Access denied to model " ++ model_id ++ ". Please check model access in AWS Bedrock console." }
  else
    { kind := .providerError, msg := "Bedrock error: " ++ message }

/-! ## Image MIME sniffing (`OpenAICompatibleProvider._detect_image_format`) -/

/-- PNG signature `b'\x89PNG\r\n\x1a\n'`. -/
def pngSig : List Nat := [0x89, 0x50, 0x4E, 0x47, 0x0D, 0x0A, 0x1A, 0x0A]

/-- JPEG start-of-image marker `b'\xff\xd8\xff'`. -/
def jpegSig : List Nat := [0xFF, 0xD8, 0xFF]

/-- `b'GIF87a'`. -/
def gif87Sig : List Nat := [0x47, 0x49, 0x46, 0x38, 0x37, 0x61]

/-- `b'GIF89a'`. -/
def gif89Sig : List Nat := [0x47, 0x49, 0x46, 0x38, 0x39, 0x61]

/-- `b'RIFF'`. -/
def riffSig : List Nat := [0x52, 0x49, 0x46, 0x46]

/-- `b'WEBP'`. -/
def webpSig : List Nat := [0x57, 0x45, 0x42, 0x50]

/-- `_detect_image_format` (openai_compatible.py lines 266-287).  Python's
`image_data[8:12] == b'WEBP'` compares a (possibly short) slice, modelled by
`take`/`drop`. -/
def detect_image_format (image_data : List Nat) : String :=
  if pngSig.isPrefixOf image_data then "png"
  else if jpegSig.isPrefixOf image_data then "jpeg"
  else if gif87Sig.isPrefixOf image_data ∨ gif89Sig.isPrefixOf image_data then "gif"
  else if riffSig.isPrefixOf image_data ∧ (image_data.drop 8).take 4 = webpSig then "webp"
  else "png"

/-! ## SSE stream parsing (`OpenAICompatibleProvider._parse_sse_stream`)

The parser works line by line.  Python string handling (`str.strip`,
`str.startswith`, slicing) is modelled over `List Char`; `json.loads` is
modelled by the executable JSON parser below (strict mode: raw control
characters inside strings are rejected, `NaN`/`Infinity`/`-Infinity` are
accepted, objects keep the last of duplicate keys on lookup). -/

/-- Python `str.strip()` whitespace set (ASCII part): space, `\t`, `\n`, `\r`,
`\x0b`, `\x0c`. -/
def isPyWs (c : Char) : Bool :=
  c = ' ' ∨ c = '\t' ∨ c = '\n' ∨ c = '\r' ∨ c = '\x0b' ∨ c = '\x0c'

/-- Python `str.strip()`. -/
def pyStrip (s : List Char) : List Char :=
  ((s.dropWhile isPyWs).reverse.dropWhile isPyWs).reverse

/-- JSON whitespace (`json.loads` skips exactly these between tokens). -/
def isJsonWs (c : Char) : Bool :=
  c = ' ' ∨ c = '\t' ∨ c = '\n' ∨ c = '\r'

/-- Skip JSON whitespace. -/
def skipWs (s : List Char) : List Char :=
  s.dropWhile isJsonWs

/-- A JSON value as produced by `json.loads`.  Numbers keep their integer
part, fraction digits and exponent lexeme (enough to decide Python
truthiness); `nan`/`inf` cover the non-standard literals Python accepts. -/
inductive Json where
  | null
  | bool (b : Bool)
  | num (intPart : Int) (fracDigits : List Char) (expLexeme : List Char)
  | str (s : List Char)
  | arr (elems : List Json)
  | obj (members : List (List Char × Json))
  | nan
  | inf (neg : Bool)

/-- Hex digit value, if any. -/
def hexVal (c : Char) : Option Nat :=
  if '0' ≤ c ∧ c ≤ '9' then some (c.toNat - '0'.toNat)
  else if 'a' ≤ c ∧ c ≤ 'f' then some (c.toNat - 'a'.toNat + 10)
  else if 'A' ≤ c ∧ c ≤ 'F' then some (c.toNat - 'A'.toNat + 10)
  else none

/-- Single-character JSON string escapes. -/
def escChar (c : Char) : Option Char :=
  if c = '"' then some '"'
  else if c = '\\' then some '\\'
  else if c = '/' then some '/'
  else if c = 'b' then some '\x08'
  else if c = 'f' then some '\x0c'
  else if c = 'n' then some '\n'
  else if c = 'r' then some '\r'
  else if c = 't' then some '\t'
  else none

/-- Parse the rest of a JSON string (after the opening quote), with fuel.
Returns the decoded characters and the remaining input.  Lone surrogate
escapes are mapped through `Char.ofNat` (never reached by the inputs settled
here). -/
def pStringRest : Nat → List Char → Option (List Char × List Char)
  | 0, _ => none
  | _, [] => none
  | fuel + 1, c :: rest =>
    if c = '"' then some ([], rest)
    else if c = '\\' then
      match rest with
      | 'u' :: h1 :: h2 :: h3 :: h4 :: rest' =>
          match hexVal h1, hexVal h2, hexVal h3, hexVal h4 with
          | some a, some b, some d, some e =>
              match pStringRest fuel rest' with
              | some (cs, rem) => some (Char.ofNat (((a * 16 + b) * 16 + d) * 16 + e) :: cs, rem)
              | none => none
          | _, _, _, _ => none
      | e :: rest' =>
          match escChar e with
          | some ec =>
              match pStringRest fuel rest' with
              | some (cs, rem) => some (ec :: cs, rem)
              | none => none
          | none => none
      | [] => none
    else if c.toNat < 0x20 then none
    else
      match pStringRest fuel rest with
      | some (cs, rem) => some (c :: cs, rem)
      | none => none

/-- Parse a run of decimal digits (at least one). -/
def pDigits : List Char → Option (List Char × List Char)
  | cs =>
    let ds := cs.takeWhile Char.isDigit
    if ds.isEmpty then none else some (ds, cs.drop ds.length)

/-- Digits to a natural number. -/
def digitsToNat (ds : List Char) : Nat :=
  ds.foldl (fun acc c => acc * 10 + (c.toNat - '0'.toNat)) 0

/-- Parse a JSON number (after an optional leading minus has been noted).
JSON forbids leading zeros in the integer part. -/
def pNumAfterSign (neg : Bool) (cs : List Char) : Option (Json × List Char) :=
  match pDigits cs with
  | none => none
  | some (intDs, rest1) =>
    if intDs.length > 1 ∧ intDs.headD '0' = '0' then none
    else
      let intVal : Int := if neg then -(digitsToNat intDs : Int) else (digitsToNat intDs : Int)
      let (fracDs, rest2) :=
        match rest1 with
        | '.' :: afterDot =>
          match pDigits afterDot with
          | some (ds, r) => (ds, some r)
          | none => ([], none)
        | _ => ([], some rest1)
      match rest2 with
      | none => none
      | some rest2' =>
        match rest2' with
        | e :: afterE =>
          if e = 'e' ∨ e = 'E' then
            let (signCs, afterSign) :=
              match afterE with
              | s :: r => if s = '+' ∨ s = '-' then ([s], r) else ([], afterE)
              | [] => ([], afterE)
            match pDigits afterSign with
            | some (eds, r) => some (.num intVal fracDs (e :: (signCs ++ eds)), r)
            | none => none
          else some (.num intVal fracDs [], rest2')
        | [] => some (.num intVal fracDs [], [])

mutual

/-- Parse one JSON value (no leading whitespace), with fuel. -/
def pVal : Nat → List Char → Option (Json × List Char)
  | 0, _ => none
  | fuel + 1, cs =>
    match cs with
    | 'n' :: 'u' :: 'l' :: 'l' :: rest => some (.null, rest)
    | 't' :: 'r' :: 'u' :: 'e' :: rest => some (.bool true, rest)
    | 'f' :: 'a' :: 'l' :: 's' :: 'e' :: rest => some (.bool false, rest)
    | 'N' :: 'a' :: 'N' :: rest => some (.nan, rest)
    | 'I' :: 'n' :: 'f' :: 'i' :: 'n' :: 'i' :: 't' :: 'y' :: rest => some (.inf false, rest)
    | '-' :: 'I' :: 'n' :: 'f' :: 'i' :: 'n' :: 'i' :: 't' :: 'y' :: rest => some (.inf true, rest)
    | '"' :: rest =>
        match pStringRest (rest.length + 1) rest with
        | some (s, rem) => some (.str s, rem)
        | none => none
    | '[' :: rest => pArrElems fuel (skipWs rest)
    | '{' :: rest => pObjMembers fuel (skipWs rest)
    | '-' :: rest => pNumAfterSign true rest
    | c :: _ => if c.isDigit then pNumAfterSign false cs else none
    | [] => none

/-- Parse array elements after `[` (leading whitespace already skipped). -/
def pArrElems : Nat → List Char → Option (Json × List Char)
  | 0, _ => none
  | fuel + 1, cs =>
    match cs with
    | ']' :: rest => some (.arr [], rest)
    | _ =>
      match pVal fuel cs with
      | none => none
      | some (v, rem) => pArrTail fuel [v] (skipWs rem)

/-- Parse `, value`* `]` after at least one element. `acc` is reversed. -/
def pArrTail : Nat → List Json → List Char → Option (Json × List Char)
  | 0, _, _ => none
  | fuel + 1, acc, cs =>
    match cs with
    | ']' :: rest => some (.arr acc.reverse, rest)
    | ',' :: rest =>
      match pVal fuel (skipWs rest) with
      | none => none
      | some (v, rem) => pArrTail fuel (v :: acc) (skipWs rem)
    | _ => none

/-- Parse object members after `{` (leading whitespace already skipped). -/
def pObjMembers : Nat → List Char → Option (Json × List Char)
  | 0, _ => none
  | fuel + 1, cs =>
    match cs with
    | '}' :: rest => some (.obj [], rest)
    | _ =>
      match pMember fuel cs with
      | none => none
      | some (kv, rem) => pObjTail fuel [kv] (skipWs rem)

/-- Parse `, member`* `}` after at least one member. `acc` is reversed. -/
def pObjTail : Nat → List (List Char × Json) → List Char → Option (Json × List Char)
  | 0, _, _ => none
  | fuel + 1, acc, cs =>
    match cs with
    | '}' :: rest => some (.obj acc.reverse, rest)
    | ',' :: rest =>
      match pMember fuel (skipWs rest) with
      | none => none
      | some (kv, rem) => pObjTail fuel (kv :: acc) (skipWs rem)
    | _ => none

/-- Parse one `"key": value` member. -/
def pMember : Nat → List Char → Option ((List Char × Json) × List Char)
  | 0, _ => none
  | fuel + 1, cs =>
    match cs with
    | '"' :: rest =>
      match pStringRest (rest.length + 1) rest with
      | none => none
      | some (k, rem) =>
        match skipWs rem with
        | ':' :: rest' =>
          match pVal fuel (skipWs rest') with
          | none => none
          | some (v, rem') => some ((k, v), rem')
        | _ => none
    | _ => none

end

/-- `json.loads(data)`: parse a complete JSON document, allowing surrounding
whitespace; `none` models `json.JSONDecodeError`. -/
def jsonParse (s : List Char) : Option Json :=
  match pVal (s.length + 4) (skipWs s) with
  | some (j, rest) => if skipWs rest = [] then some j else none
  | none => none

/-- `dict.get(key)` on a parsed JSON object member list (last duplicate key
wins, as in Python's `json.loads`). -/
def objGet (kvs : List (List Char × Json)) (k : List Char) : Option Json :=
  kvs.foldl (fun acc kv => if kv.1 = k then some kv.2 else acc) none

/-- Python truthiness of a JSON value. -/
def pyTruthy : Json → Bool
  | .null => false
  | .bool b => b
  | .num i frac _ => ¬(i = 0 ∧ frac.all (fun c => c = '0'))
  | .str s => ¬s.isEmpty
  | .arr l => ¬l.isEmpty
  | .obj l => ¬l.isEmpty
  | .nan => true
  | .inf _ => true

/-- The string payload of a JSON value used as a chunk's `content` (the
protocol only ever sends strings here; non-string truthy values are rendered
as `""` in this model). -/
def pyStrOf : Json → String
  | .str s => String.mk s
  | _ => ""

/-- `chunk_data.get(key, default)`: attribute error (modelled as `Except.error`)
if the value is not a dict, else member lookup with a default. -/
def pyGet (j : Json) (key : List Char) (dflt : Json) : Except String Json :=
  match j with
  | .obj kvs => .ok ((objGet kvs key).getD dflt)
  | _ => .error "AttributeError"

/-- Chunk extraction from one parsed SSE JSON object
(`_parse_sse_stream` lines 177-192): take the first choice, emit a content
chunk if the delta's `content` is truthy, then a `done` chunk if the choice's
`finish_reason` is truthy.  Errors model the uncaught Python exceptions raised
when the payload has the wrong shape (only `json.JSONDecodeError` is caught in
the source). -/
def extractChunks (j : Json) : Except String (List StreamChunk) := do
  let choices ← pyGet j "choices".data (.arr [])
  match choices with
  | .arr [] => .ok []
  | .arr (choice :: _) => do
      let delta ← pyGet choice "delta".data (.obj [])
      let content ← pyGet delta "content".data (.str [])
      let fin ← pyGet choice "finish_reason".data .null
      let contentChunks := if pyTruthy content then [{ content := pyStrOf content : StreamChunk }] else []
      let finChunks := if pyTruthy fin then [doneChunk] else []
      .ok (contentChunks ++ finChunks)
  | _ => if pyTruthy choices then .error "TypeError" else .ok []

/-- `_parse_sse_stream` over the sequence of lines of the response body:
yields the chunks produced before the stream ends, plus an optional uncaught
exception.  Blank/comment lines and lines without the `data: ` marker are
skipped; `[DONE]` yields a terminal chunk and stops; malformed JSON is skipped;
a shape error in a parsed payload propagates. -/
def parse_sse_stream : List String → List StreamChunk × Option String
  | [] => ([], none)
  | l :: rest =>
    let line := pyStrip l.data
    if line.isEmpty ∨ [':'].isPrefixOf line then parse_sse_stream rest
    else if "data: ".data.isPrefixOf line then
      let data := pyStrip (line.drop 6)
      if data = "[DONE]".data then ([doneChunk], none)
      else
        match jsonParse data with
        | none => parse_sse_stream rest
        | some j =>
          match extractChunks j with
          | .error e => ([], some e)
          | .ok cs =>
            let r := parse_sse_stream rest
            (cs ++ r.1, r.2)
    else parse_sse_stream rest

/-- Line 1 of the repository's 5-line SSE fixture
(`tests/fixtures/openai_responses.py`): a chunk whose delta carries
"Hello". -/
def sseLine1 : String := "data: \x7b\"id\": \"chatcmpl-test\", \"object\": \"chat.completion.chunk\", \"created\": 1234567890, \"model\": \"test-model\", \"choices\": [\x7b\"index\": 0, \"delta\": \x7b\"content\": \"Hello\"\x7d, \"finish_reason\": null\x7d]\x7d\n\n"

/-- Line 2: delta " world". -/
def sseLine2 : String := "data: \x7b\"id\": \"chatcmpl-test\", \"object\": \"chat.completion.chunk\", \"created\": 1234567890, \"model\": \"test-model\", \"choices\": [\x7b\"index\": 0, \"delta\": \x7b\"content\": \" world\"\x7d, \"finish_reason\": null\x7d]\x7d\n\n"

/-- Line 3: delta "!". -/
def sseLine3 : String := "data: \x7b\"id\": \"chatcmpl-test\", \"object\": \"chat.completion.chunk\", \"created\": 1234567890, \"model\": \"test-model\", \"choices\": [\x7b\"index\": 0, \"delta\": \x7b\"content\": \"!\"\x7d, \"finish_reason\": null\x7d]\x7d\n\n"

/-- Line 4: empty delta with `finish_reason: "stop"`. -/
def sseLine4 : String := "data: \x7b\"id\": \"chatcmpl-test\", \"object\": \"chat.completion.chunk\", \"created\": 1234567890, \"model\": \"test-model\", \"choices\": [\x7b\"index\": 0, \"delta\": \x7b\x7d, \"finish_reason\": \"stop\"\x7d]\x7d\n\n"

/-- Line 5: the literal end marker. -/
def sseLine5 : String := "data: [DONE]\n\n"

/-- The 5-line SSE fixture of `mock_streaming_response()`. -/
def sseFixture : List String := [sseLine1, sseLine2, sseLine3, sseLine4, sseLine5]

/-! ## Shared data model and configuration (`providers/base.py`, `config/models.py`) -/

/-- Message role literal. -/
inductive Role where
  | user
  | assistant
  | system
deriving DecidableEq

/-- `Message` dataclass from `providers/base.py`: one conversation turn.
Image payloads are raw byte buffers (`List Nat`), documents are
`(filename, data)` pairs. -/
structure Message where
  role : Role
  content : String
  images : List (List Nat) := []
  documents : List (String × List Nat) := []
deriving DecidableEq

/-- `ProviderType` enum from `config/models.py`. -/
inductive ProviderType where
  | bedrock
  | openai_compatible
deriving DecidableEq

/-- `ModelConfig` from `config/models.py` (the fields the service and the
adapters read; `temperature` is a float and is not modelled — no settled claim
reads it). -/
structure ModelConfig where
  provider : ProviderType
  name : String
  supports_images : Bool := false
  supports_documents : Bool := false
  supports_reasoning : Bool := false
  max_tokens : Nat := 4096
  model_id : Option String := none
  region : Option String := none
  base_url : Option String := none
  model : Option String := none
  api_key : Option String := none
deriving DecidableEq

/-- A knowledge source entry of an agent (only its presence matters to the
chat service; fetching is external). -/
structure KnowledgeSource where
  name : String
deriving DecidableEq

/-- `AgentConfig` from `config/models.py`. -/
structure AgentConfig where
  name : String
  instructions : String := ""
  knowledge_sources : List KnowledgeSource := []
  inject_knowledge_automatically : Bool := true
deriving DecidableEq

/-- The `models`/`agents` tables of the active `Config`. -/
structure Config where
  models : List (String × ModelConfig)
  agents : List (String × AgentConfig)
deriving DecidableEq

/-- Python dict lookup on a key/value table (keys are unique in a loaded
config; first match). -/
def dictGet {α : Type} (l : List (String × α)) (k : String) : Option α :=
  (l.find? (fun p => p.1 = k)).map (fun p => p.2)

/-- A Python exception as raised by the chat-service layer.  Messages built
from f-strings that only interpolate names are carried structurally.  The
constructors: `keyError` models a `dict[...]` miss; `valueError` a
`ValueError` with its literal message; `modelNotFound`/`agentNotFound` the
`ValueError` of `set_model`/`set_agent`/`create_provider` naming the unknown
key and the available keys; `missingField` the construction-time `ValueError`
of a provider; `providerRaised` an exception of the provider taxonomy. -/
inductive PyErr where
  | keyError (key : String)
  | valueError (msg : String)
  | modelNotFound (key : String) (available : List String)
  | agentNotFound (key : String) (available : List String)
  | missingField (provider : String) (field : String)
  | providerRaised (e : RaisedError)
deriving DecidableEq

/-! ## Provider construction and feature support -/

/-- A constructed provider adapter: `BedrockProvider` holds its resolved
`model_id` and region, `OpenAICompatibleProvider` its configuration. -/
inductive Provider where
  | bedrock (model_id : String) (region : String)
  | openaiCompat (config : ModelConfig)
deriving DecidableEq

/-- Python `needle in hay` on strings (over char lists). -/
def containsSub (hay needle : List Char) : Bool :=
  match hay with
  | [] => needle.isEmpty
  | _ :: t => needle.isPrefixOf hay || containsSub t needle

/-- `str.lower()` (ASCII model, the only case the model ids exercise). -/
def toLowerChars (s : String) : List Char :=
  s.data.map Char.toLower

/-- `BedrockProvider.supports_feature` (bedrock.py lines 275-297): substring
heuristics over the lowercased model id. -/
def bedrock_supports_feature (model_id : String) (feature : String) : Bool :=
  if feature = "images" then containsSub (toLowerChars model_id) "claude".data
  else if feature = "documents" then containsSub (toLowerChars model_id) "claude".data
  else if feature = "reasoning" then
    containsSub (toLowerChars model_id) "extended".data
      || containsSub (toLowerChars model_id) "thinking".data
  else false

/-- `OpenAICompatibleProvider.supports_feature` (openai_compatible.py lines
289-306): declared configuration flags. -/
def openai_supports_feature (config : ModelConfig) (feature : String) : Bool :=
  if feature = "images" then config.supports_images
  else if feature = "documents" then config.supports_documents
  else if feature = "reasoning" then config.supports_reasoning
  else false

/-- `supports_feature` dispatched on the constructed adapter. -/
def supports_feature : Provider → String → Bool
  | .bedrock model_id _, feature => bedrock_supports_feature model_id feature
  | .openaiCompat config, feature => openai_supports_feature config feature

/-- `create_provider` factory (`providers/__init__.py`) combined with the
constructor validation of each adapter: a Bedrock config needs a truthy
`model_id` (its region defaults to `us-east-1`), an OpenAI-compatible config
needs truthy `base_url` and `model`.  The boto3/httpx client objects are
external and their construction is modelled as succeeding. -/
def create_provider (mc : ModelConfig) : Except PyErr Provider :=
  match mc.provider with
  | .bedrock =>
    if mc.model_id.getD "" = "" then .error (.missingField "bedrock" "model_id")
    else .ok (.bedrock (mc.model_id.getD "")
      (if mc.region.getD "" = "" then "us-east-1" else mc.region.getD ""))
  | .openai_compatible =>
    if mc.base_url.getD "" = "" then .error (.missingField "openai_compatible" "base_url")
    else if mc.model.getD "" = "" then .error (.missingField "openai_compatible" "model")
    else .ok (.openaiCompat mc)

/-! ## Chat orchestration service (`services/chat.py`)

The service is modelled without persistence (`storage=None`, as in the unit
tests): the persistence branches of `add_message` are no-ops then.  The
knowledge service is external; the result of
`fetch_relevant_knowledge` is an oracle parameter. -/

/-- The mutable state of a `ChatService` that the settled claims read. -/
structure ChatState where
  config : Config
  messages : List Message := []
  current_model_key : String
  current_agent_key : String
deriving DecidableEq

/-- `ChatService.add_message` (chat.py lines 126-150) without persistence:
append one turn to the in-memory history. -/
def add_message (s : ChatState) (role : Role) (content : String)
    (images : List (List Nat)) (documents : List (String × List Nat)) : ChatState :=
  { s with messages := s.messages ++
      [{ role := role, content := content, images := images, documents := documents }] }

/-- `ChatService.set_model` (chat.py lines 200-217): unknown keys are rejected
with a `ValueError` naming the available keys, leaving the state unchanged. -/
def set_model (s : ChatState) (model_key : String) : ChatState × Option PyErr :=
  match dictGet s.config.models model_key with
  | none => (s, some (.modelNotFound model_key (s.config.models.map (fun p => p.1))))
  | some _ => ({ s with current_model_key := model_key }, none)

/-- `ChatService.set_agent` (chat.py lines 237-252). -/
def set_agent (s : ChatState) (agent_key : String) : ChatState × Option PyErr :=
  match dictGet s.config.agents agent_key with
  | none => (s, some (.agentNotFound agent_key (s.config.agents.map (fun p => p.1))))
  | some _ => ({ s with current_agent_key := agent_key }, none)

/-- `ChatService.get_current_agent_config`: `self.config.agents[key]`, a
`KeyError` when the key is missing. -/
def get_current_agent_config (s : ChatState) : Except PyErr AgentConfig :=
  match dictGet s.config.agents s.current_agent_key with
  | some a => .ok a
  | none => .error (.keyError s.current_agent_key)

/-- The `"### Reference: ..."` knowledge text assembled in
`_build_messages_with_agent` (chat.py lines 298-303). -/
def knowledgeText (parts : List (String × String)) : String :=
  String.intercalate "\n\n" (parts.map (fun p => "### Reference: " ++ p.1 ++ "\n" ++ p.2))

/-- `ChatService._build_messages_with_agent` (chat.py lines 272-318):
an optional leading system message (agent instructions, extended with fetched
knowledge when automatic injection is on and the agent has sources), followed
by the full history.  `knowledge_parts` is the external knowledge service's
result for this user message. -/
def build_messages_with_agent (s : ChatState)
    (knowledge_parts : List (String × String)) : Except PyErr (List Message) := do
  let agent ← get_current_agent_config s
  if agent.instructions ≠ "" then
    let system_content :=
      if agent.inject_knowledge_automatically ∧ ¬agent.knowledge_sources.isEmpty
          ∧ ¬knowledge_parts.isEmpty then
        agent.instructions ++ "\n\n## Relevant Knowledge\n\n" ++ knowledgeText knowledge_parts
      else agent.instructions
    .ok ({ role := .system, content := system_content } :: s.messages)
  else
    .ok s.messages

/-- Visible content accumulated across yielded chunks
(`assistant_message` in `stream_response`). -/
def accumContent (cs : List StreamChunk) : String :=
  cs.foldl (fun a c => a ++ c.content) ""

/-- Reasoning accumulated across yielded chunks (`assistant_reasoning`). -/
def accumReasoning (cs : List StreamChunk) : String :=
  cs.foldl (fun a c => a ++ c.reasoning) ""

/-- The capability `ValueError` message for images (chat.py lines 362-365). -/
def imagesCapMsg (name : String) : String :=
  "Model " ++ name ++ " does not support images. Please select a vision-capable model."

/-- The capability `ValueError` message for documents (chat.py lines 369-372). -/
def documentsCapMsg (name : String) : String :=
  "Model " ++ name ++ " does not support documents. Please select a model that supports document inputs."

/-- Outcome of one `stream_response` call: the service state afterwards, the
chunks the caller received, and the exception propagated to the caller (if
any). -/
structure StreamResult where
  state : ChatState
  chunks : List StreamChunk
  error : Option PyErr
deriving DecidableEq

/-- `ChatService.stream_response` (chat.py lines 335-414).  The provider's
stream is an oracle: `providerChunks` are the chunks the wire produced before
`providerErr` (if set) was raised.  Steps, in source order: resolve the model
config (`KeyError` possible), construct the provider, capability-gate images
then documents, append the user turn, build the outbound message list
(`KeyError` on an unknown agent key), then either propagate the stream error
(leaving only the user turn) or, on graceful completion, append an assistant
turn exactly when the accumulated visible content is non-empty. -/
def stream_response (s : ChatState) (user_message : String)
    (images : List (List Nat)) (documents : List (String × List Nat))
    (knowledge_parts : List (String × String))
    (providerChunks : List StreamChunk) (providerErr : Option PyErr) : StreamResult :=
  match dictGet s.config.models s.current_model_key with
  | none => ⟨s, [], some (.keyError s.current_model_key)⟩
  | some model_config =>
    match create_provider model_config with
    | .error e => ⟨s, [], some e⟩
    | .ok provider =>
      if ¬images.isEmpty ∧ supports_feature provider "images" = false then
        ⟨s, [], some (.valueError (imagesCapMsg model_config.name))⟩
      else if ¬documents.isEmpty ∧ supports_feature provider "documents" = false then
        ⟨s, [], some (.valueError (documentsCapMsg model_config.name))⟩
      else
        let s1 := add_message s .user user_message images documents
        match build_messages_with_agent s1 knowledge_parts with
        | .error e => ⟨s1, [], some e⟩
        | .ok _messages_to_send =>
          match providerErr with
          | some e => ⟨s1, providerChunks, some e⟩
          | none =>
            let assistant_message := accumContent providerChunks
            if assistant_message ≠ "" then
              ⟨add_message s1 .assistant assistant_message [] [], providerChunks, none⟩
            else
              ⟨s1, providerChunks, none⟩

/-- One `stream_response` call of a multi-call run: the user text, the
knowledge oracle's answer, and the chunks of the (error-free) provider
stream. -/
structure CallSpec where
  text : String
  knowledge : List (String × String)
  chunks : List StreamChunk
deriving DecidableEq

/-- A sequence of attachment-free `stream_response` calls, each driving its
provider stream to graceful completion. -/
def runCalls : ChatState → List CallSpec → ChatState
  | s, [] => s
  | s, c :: rest => runCalls (stream_response s c.text [] [] c.knowledge c.chunks none).state rest

/-- Role pattern check: the list alternates roles starting with `r`. -/
def alternatesFrom : Role → List Role → Bool
  | _, [] => true
  | r, x :: xs => x = r && alternatesFrom (if r = .user then .assistant else .user) xs

/-! ## Aliasing model for `get_history` (`chat.py` lines 416-428)

`get_history` returns `self.messages.copy()`.  To state the frame property
(mutating the returned list does not touch the service's history), Python
list objects are modelled in a small heap: a cell per list object, references
are cell indices, `list.copy()` allocates a fresh cell. -/

/-- A heap of Python list-of-`Message` objects. -/
structure ListHeap where
  cells : List (List Message)
deriving DecidableEq

/-- Dereference a list object. -/
def heapGet (h : ListHeap) (r : Nat) : List Message :=
  h.cells.getD r []

/-- In-place update of a list object. -/
def heapSet (h : ListHeap) (r : Nat) (v : List Message) : ListHeap :=
  ⟨h.cells.set r v⟩

/-- Allocate a fresh list object. -/
def heapAlloc (h : ListHeap) (v : List Message) : ListHeap × Nat :=
  (⟨h.cells ++ [v]⟩, h.cells.length)

/-- The service's reference to `self.messages`. -/
structure ChatServiceRefs where
  history : Nat
deriving DecidableEq

/-- `ChatService.get_history`: `return self.messages.copy()` — allocates a new
list holding the same elements and returns a reference to it. -/
def get_history (h : ListHeap) (svc : ChatServiceRefs) : ListHeap × Nat :=
  heapAlloc h (heapGet h svc.history)

/-- `lst.append(m)` on a list object. -/
def list_append (h : ListHeap) (r : Nat) (m : Message) : ListHeap :=
  heapSet h r (heapGet h r ++ [m])

/-- `del lst[i]` / `lst.pop(i)` on a list object. -/
def list_remove (h : ListHeap) (r : Nat) (i : Nat) : ListHeap :=
  heapSet h r ((heapGet h r).eraseIdx i)

/-- `ChatService.message_count`: `len(self.messages)`. -/
def message_count (h : ListHeap) (svc : ChatServiceRefs) : Nat :=
  (heapGet h svc.history).length

/-! ## Concrete instantiation data -/

/-- A concrete OpenAI-compatible model entry used by concrete instantiations:
valid construction fields, all capability flags left at their `false`
defaults. -/
def localModel : ModelConfig :=
  { provider := .openai_compatible
    name := "Local"
    base_url := some "http://localhost:1234/v1"
    model := some "m0" }

/-- A concrete agent with no instructions. -/
def defaultAgent : AgentConfig := { name := "Default" }

/-- A concrete service state over `localModel`/`defaultAgent` with empty
history. -/
def demoState : ChatState :=
  { config := ⟨[("local", localModel)], [("default", defaultAgent)]⟩
    current_model_key := "local"
    current_agent_key := "default" }

/-- The expected history of a run of error-free calls: a user turn holding
each call's text followed by an assistant turn holding that call's
accumulated content. -/
def turnsOf : List CallSpec → List Message
  | [] => []
  | c :: rest =>
      { role := .user, content := c.text } ::
        { role := .assistant, content := accumContent c.chunks } :: turnsOf rest

/-! ## Helper lemmas -/

/-- Two signatures with different first elements cannot both be prefixes of
the same sequence. -/
theorem prefix_head_ne {α : Type} [BEq α] [LawfulBEq α] {a b : α} {data : List α}
    (as bs : List α) (h : (a :: as).isPrefixOf data = true) (hne : b ≠ a) :
    (b :: bs).isPrefixOf data = false := by
  cases data with
  | nil =>
    rw [List.isPrefixOf_iff_prefix] at h
    simp at h
  | cons x xs =>
    rw [List.isPrefixOf_iff_prefix, List.cons_prefix_cons] at h
    obtain ⟨rfl, -⟩ := h
    rw [Bool.eq_false_iff]
    intro hc
    rw [List.isPrefixOf_iff_prefix, List.cons_prefix_cons] at hc
    exact hne hc.1

/-- A non-empty list is not `isEmpty`. -/
theorem ne_nil_isEmpty_false {α : Type} {l : List α} (h : l ≠ []) : l.isEmpty = false := by
  cases l with
  | nil => exact absurd rfl h
  | cons a t => rfl

/-- With a resolvable agent key, `_build_messages_with_agent` succeeds. -/
theorem build_messages_ok (s : ChatState) (knowledge_parts : List (String × String))
    (agent : AgentConfig) (ha : dictGet s.config.agents s.current_agent_key = some agent) :
    ∃ ms, build_messages_with_agent s knowledge_parts = .ok ms := by
  unfold build_messages_with_agent get_current_agent_config
  rw [ha]
  simp only [bind, Except.bind]
  split
  · exact ⟨_, rfl⟩
  · exact ⟨_, rfl⟩

/-- Reduction of `stream_response` past a resolvable model, a successful
provider construction, passing capability gates and a resolvable agent key:
what remains is the user-turn append followed by the stream outcome. -/
theorem stream_response_after_gates (s : ChatState) (user_message : String)
    (images : List (List Nat)) (documents : List (String × List Nat))
    (knowledge_parts : List (String × String)) (providerChunks : List StreamChunk)
    (providerErr : Option PyErr) (mc : ModelConfig) (provider : Provider) (agent : AgentConfig)
    (hmc : dictGet s.config.models s.current_model_key = some mc)
    (hp : create_provider mc = .ok provider)
    (hgi : images = [] ∨ supports_feature provider "images" = true)
    (hgd : documents = [] ∨ supports_feature provider "documents" = true)
    (ha : dictGet s.config.agents s.current_agent_key = some agent) :
    stream_response s user_message images documents knowledge_parts providerChunks providerErr =
      (match providerErr with
       | some e => ⟨add_message s .user user_message images documents, providerChunks, some e⟩
       | none =>
         if accumContent providerChunks ≠ "" then
           ⟨add_message (add_message s .user user_message images documents) .assistant
              (accumContent providerChunks) [] [], providerChunks, none⟩
         else
           ⟨add_message s .user user_message images documents, providerChunks, none⟩) := by
  have hgate1 : ¬(¬images.isEmpty = true ∧ supports_feature provider "images" = false) := by
    rcases hgi with hgi | hgi
    · subst hgi
      intro hc
      exact hc.1 rfl
    · intro hc
      rw [hgi] at hc
      exact absurd hc.2 (by simp)
  have hgate2 : ¬(¬documents.isEmpty = true ∧ supports_feature provider "documents" = false) := by
    rcases hgd with hgd | hgd
    · subst hgd
      intro hc
      exact hc.1 rfl
    · intro hc
      rw [hgd] at hc
      exact absurd hc.2 (by simp)
  obtain ⟨ms, hms⟩ := build_messages_ok (add_message s .user user_message images documents)
    knowledge_parts agent ha
  unfold stream_response
  rw [hmc]
  simp only [hp]
  rw [if_neg hgate1, if_neg hgate2]
  simp only [hms]

/-- State change of one error-free, attachment-free `stream_response` call
whose stream accumulated non-empty visible content: the user turn and the
assistant turn are appended, everything else is unchanged. -/
theorem stream_response_ok_state (s : ChatState) (text : String)
    (knowledge : List (String × String)) (chunks : List StreamChunk)
    (mc : ModelConfig) (provider : Provider) (agent : AgentConfig)
    (hmc : dictGet s.config.models s.current_model_key = some mc)
    (hp : create_provider mc = .ok provider)
    (ha : dictGet s.config.agents s.current_agent_key = some agent)
    (hcontent : accumContent chunks ≠ "") :
    (stream_response s text [] [] knowledge chunks none).state =
      { s with messages := s.messages ++
          [{ role := .user, content := text },
           { role := .assistant, content := accumContent chunks }] } := by
  rw [stream_response_after_gates s text [] [] knowledge chunks none mc provider agent
    hmc hp (Or.inl rfl) (Or.inl rfl) ha]
  simp only [if_pos hcontent]
  simp [add_message]

/-- `turnsOf` produces two turns per call. -/
theorem turnsOf_length (calls : List CallSpec) : (turnsOf calls).length = 2 * calls.length := by
  induction calls with
  | nil => rfl
  | cons c rest ih =>
    simp [turnsOf, ih]
    omega

/-- `turnsOf` alternates roles starting from `user`. -/
theorem turnsOf_alternates (calls : List CallSpec) :
    alternatesFrom .user ((turnsOf calls).map (fun m => m.role)) = true := by
  induction calls with
  | nil => rfl
  | cons c rest ih => simpa [turnsOf, alternatesFrom] using ih

/-- A run of error-free calls with non-empty accumulated content appends
exactly `turnsOf calls` to the history, touching nothing else. -/
theorem runCalls_spec (calls : List CallSpec) :
    ∀ (s : ChatState) (mc : ModelConfig) (provider : Provider) (agent : AgentConfig),
    dictGet s.config.models s.current_model_key = some mc →
    create_provider mc = .ok provider →
    dictGet s.config.agents s.current_agent_key = some agent →
    (∀ c ∈ calls, accumContent c.chunks ≠ "") →
    runCalls s calls = { s with messages := s.messages ++ turnsOf calls } := by
  induction calls with
  | nil =>
    intro s mc provider agent _ _ _ _
    simp [runCalls, turnsOf]
  | cons c rest ih =>
    intro s mc provider agent hmc hp ha hne
    rw [runCalls]
    rw [stream_response_ok_state s c.text c.knowledge c.chunks mc provider agent hmc hp ha
      (hne c (by simp))]
    have hstep := ih
      { s with messages := s.messages ++
          [{ role := .user, content := c.text },
           { role := .assistant, content := accumContent c.chunks }] }
      mc provider agent hmc hp ha (fun d hd => hne d (by simp [hd]))
    rw [hstep]
    simp [turnsOf, List.append_assoc]

/-- The Bedrock event loop over an error-free prefix decomposes: chunks of
`l₁ ++ l₂` are the chunks of `l₁` followed by the chunks of `l₂` run from the
classification map accumulated over `l₁`. -/
theorem runStreamAux_append (l₁ : List BedrockEvent) :
    ∀ (m : BlockKindMap) (l₂ : List BedrockEvent),
    (∀ e ∈ l₁, isErrorEvent e = false) →
    runStreamAux m (l₁ ++ l₂) =
      ((runStreamAux m l₁).1 ++ (runStreamAux (l₁.foldl stepMap m) l₂).1,
       (runStreamAux (l₁.foldl stepMap m) l₂).2) := by
  induction l₁ with
  | nil =>
    intro m l₂ _
    simp [runStreamAux]
  | cons e t ih =>
    intro m l₂ h
    have he : isErrorEvent e = false := h e (by simp)
    have ht : ∀ x ∈ t, isErrorEvent x = false := fun x hx => h x (List.mem_cons_of_mem _ hx)
    have ihh := fun m' => ih m' l₂ ht
    cases e with
    | errorEvent msg => simp [isErrorEvent] at he
    | contentBlockStart i hs r => simp [runStreamAux, ihh, List.append_assoc]
    | contentBlockDelta i t' => simp [runStreamAux, ihh, List.append_assoc]
    | metadata sr => simp [runStreamAux, ihh, List.append_assoc]
    | messageStop => simp [runStreamAux, ihh, List.append_assoc]
    | other => simp [runStreamAux, ihh, List.append_assoc]

/-! ## Claims -/

/-- C1: Bedrock stream demultiplexing — on any delta event carrying text
(reached without a prior error event), the adapter emits exactly one chunk
there, chosen by the classification recorded for that block index over the
preceding block-start events: a reasoning chunk (`reasoning` set,
`is_reasoning=true`) when the recorded classification is `reasoning`, and a
content chunk otherwise — in particular a never-classified index defaults to
text. -/
theorem claim_C1_delta_demux (events : List BedrockEvent) (k : Nat) (hk : k < events.length)
    (i : Nat) (t : String)
    (hdelta : events.get ⟨k, hk⟩ = .contentBlockDelta i (some t))
    (herr : ∀ e ∈ events.take k, isErrorEvent e = false) :
    ∃ rest, (processStream events).1 =
      (processStream (events.take k)).1 ++
        (if lookupKind (kindsAfter (events.take k)) i = some .reasoning then
          [{ reasoning := t, is_reasoning := true }]
         else
          [{ content := t }]) ++ rest := by
  have hsplit : events = events.take k ++ events.get ⟨k, hk⟩ :: events.drop (k + 1) := by
    rw [List.get_eq_getElem, ← List.drop_eq_getElem_cons hk, List.take_append_drop]
  refine ⟨(runStreamAux (kindsAfter (events.take k)) (events.drop (k + 1))).1, ?_⟩
  conv_lhs => rw [hsplit]
  rw [hdelta, processStream, runStreamAux_append (events.take k) []
    (BedrockEvent.contentBlockDelta i (some t) :: events.drop (k + 1)) herr]
  simp [processStream, runStreamAux, emitEvent, stepMap, kindsAfter, List.append_assoc]

/-- Witness for C1: a two-block stream — block 0 classified text, block 1
classified reasoning — whose deltas land accordingly. -/
theorem claim_C1_delta_demux_witness :
    ∃ rest,
      (processStream [.contentBlockStart 0 true false, .contentBlockStart 1 true true,
        .contentBlockDelta 1 (some "hmm"), .messageStop]).1 =
      (processStream (List.take 2 [.contentBlockStart 0 true false,
        .contentBlockStart 1 true true, .contentBlockDelta 1 (some "hmm"), .messageStop])).1 ++
        (if lookupKind (kindsAfter (List.take 2 [.contentBlockStart 0 true false,
            .contentBlockStart 1 true true, .contentBlockDelta 1 (some "hmm"),
            .messageStop])) 1 = some .reasoning then
          [{ reasoning := "hmm", is_reasoning := true }]
         else
          [{ content := "hmm" }]) ++ rest :=
  claim_C1_delta_demux
    [.contentBlockStart 0 true false, .contentBlockStart 1 true true,
      .contentBlockDelta 1 (some "hmm"), .messageStop]
    2 (by decide) 1 "hmm" rfl (by decide)

/-- C2 counterexample: the event loop of `_process_stream` never breaks out
after a terminal event — after `messageStop` a further delta still emits a
content chunk, and a stop-reason metadata event followed by `messageStop`
(the ordering of the repository's own mock stream) emits two `done` chunks —
so "emits exactly one done chunk and ends the sequence" fails as stated. -/
theorem claim_C2_counterexample :
    (processStream [.messageStop, .contentBlockDelta 0 (some "late")]).1
      = [doneChunk, { content := "late" }]
  ∧ (processStream [.metadata (some "end_turn"), .messageStop]).1
      = [doneChunk, doneChunk]
  ∧ ((processStream [.metadata (some "end_turn"), .messageStop]).1.filter
      (fun c => c.done)).length ≠ 1 := by
  refine ⟨rfl, rfl, by decide⟩

/-- C2 (amended): on a metadata event carrying a stop reason, and on a
message-stop event, the adapter emits one `StreamChunk(done=true)` at that
event; it does not terminate the iteration, so subsequent wire events are
still processed and may emit further chunks; when the terminal event is the
last wire event, the emitted `done` chunk is the final chunk of the
sequence. -/
theorem claim_C2_amended_termination (events : List BedrockEvent) (k : Nat)
    (hk : k < events.length)
    (hterm : events.get ⟨k, hk⟩ = .messageStop ∨
      ∃ r, events.get ⟨k, hk⟩ = .metadata (some r))
    (herr : ∀ e ∈ events.take k, isErrorEvent e = false) :
    (∃ rest, (processStream events).1 =
      (processStream (events.take k)).1 ++ doneChunk :: rest)
  ∧ (k + 1 = events.length →
      (processStream events).1 = (processStream (events.take k)).1 ++ [doneChunk]) := by
  have hsplit : events = events.take k ++ events.get ⟨k, hk⟩ :: events.drop (k + 1) := by
    rw [List.get_eq_getElem, ← List.drop_eq_getElem_cons hk, List.take_append_drop]
  have main : (processStream events).1 =
      (processStream (events.take k)).1 ++
        doneChunk :: (runStreamAux (kindsAfter (events.take k)) (events.drop (k + 1))).1 := by
    conv_lhs => rw [hsplit]
    rcases hterm with h | ⟨r, h⟩ <;>
      rw [h, processStream, runStreamAux_append (events.take k) [] _ herr] <;>
      simp [processStream, runStreamAux, emitEvent, stepMap, kindsAfter]
  constructor
  · exact ⟨_, main⟩
  · intro hlen
    have hdrop : events.drop (k + 1) = [] := by
      apply List.drop_eq_nil_of_le
      omega
    rw [main, hdrop]
    rfl

/-- Witness for the amended C2: the repository's mock stream shape — deltas,
then a stop-reason metadata event, then a final message-stop event whose done
chunk closes the chunk sequence. -/
theorem claim_C2_amended_termination_witness :
    (∃ rest,
      (processStream [.contentBlockDelta 0 (some "Hi"), .metadata (some "end_turn"),
        .messageStop]).1 =
      (processStream (List.take 2 [.contentBlockDelta 0 (some "Hi"),
        .metadata (some "end_turn"), .messageStop])).1 ++ doneChunk :: rest)
  ∧ (2 + 1 = 3 →
      (processStream [.contentBlockDelta 0 (some "Hi"), .metadata (some "end_turn"),
        .messageStop]).1 =
      (processStream (List.take 2 [.contentBlockDelta 0 (some "Hi"),
        .metadata (some "end_turn"), .messageStop])).1 ++ [doneChunk]) :=
  claim_C2_amended_termination
    [.contentBlockDelta 0 (some "Hi"), .metadata (some "end_turn"), .messageStop]
    2 (by decide) (Or.inl rfl) (by decide)

/-- C3: the HTTP-compatible adapter's 5-line SSE fixture — data lines with
deltas "Hello", " world", "!", an empty delta with `finish_reason`, then the
`[DONE]` marker — yields content chunks concatenating to exactly
"Hello world!" with a terminal `done=true` chunk; blank and `:`-comment
lines are skipped, and a malformed-JSON data line is skipped without
terminating the stream or raising. -/
theorem claim_C3_sse_fixture :
    parse_sse_stream sseFixture =
      ([{ content := "Hello" }, { content := " world" }, { content := "!" },
        doneChunk, doneChunk], none)
  ∧ accumContent (parse_sse_stream sseFixture).1 = "Hello world!"
  ∧ ((parse_sse_stream sseFixture).1.getLast?).map (fun c => c.done) = some true
  ∧ (∀ (l : String) (rest : List String),
      (pyStrip l.data).isEmpty = true ∨ [':'].isPrefixOf (pyStrip l.data) = true →
      parse_sse_stream (l :: rest) = parse_sse_stream rest)
  ∧ (∀ (l : String) (rest : List String),
      "data: ".data.isPrefixOf (pyStrip l.data) = true →
      pyStrip ((pyStrip l.data).drop 6) ≠ "[DONE]".data →
      jsonParse (pyStrip ((pyStrip l.data).drop 6)) = none →
      parse_sse_stream (l :: rest) = parse_sse_stream rest) := by
  refine ⟨by decide, by decide, by decide, ?_, ?_⟩
  · intro l rest h
    simp only [parse_sse_stream]
    rw [if_pos h]
  · intro l rest hpre hndone hjson
    obtain ⟨tl, htl⟩ := List.isPrefixOf_iff_prefix.mp hpre
    have hskip : ¬((pyStrip l.data).isEmpty = true ∨
        [':'].isPrefixOf (pyStrip l.data) = true) := by
      rintro (hc | hc)
      · rw [← htl] at hc
        simp [List.isEmpty] at hc
      · rw [prefix_head_ne _ _ hpre (by decide)] at hc
        exact Bool.false_ne_true hc
    simp only [parse_sse_stream]
    rw [if_neg hskip, if_pos hpre, if_neg hndone, hjson]

/-- Witness for C3: the comment-line and malformed-JSON cases at concrete
lines, via the claim's own quantified parts. -/
theorem claim_C3_sse_fixture_witness :
    parse_sse_stream (": keepalive" :: ["data: [DONE]"]) = parse_sse_stream ["data: [DONE]"]
  ∧ parse_sse_stream ["data: \x7bnot json"] = parse_sse_stream [] :=
  ⟨claim_C3_sse_fixture.2.2.2.1 ": keepalive" ["data: [DONE]"] (by decide),
   claim_C3_sse_fixture.2.2.2.2 "data: \x7bnot json" [] (by decide) (by decide) rfl⟩

/-- C4: capability gating is atomic and pre-flight — with a selected model
whose provider reports no image support, a call with non-empty `images`
fails with the capability `ValueError` and leaves the state (hence the
history) unchanged, with no chunk delivered; likewise for `documents`.  The
provider-stream oracle (`providerChunks`, `providerErr`) is universally
quantified and absent from the outcome, so no network interaction can have
taken place. -/
theorem claim_C4_capability_gate (s : ChatState) (user_message : String)
    (images : List (List Nat)) (documents : List (String × List Nat))
    (knowledge_parts : List (String × String)) (providerChunks : List StreamChunk)
    (providerErr : Option PyErr) (mc : ModelConfig) (provider : Provider)
    (hmc : dictGet s.config.models s.current_model_key = some mc)
    (hp : create_provider mc = .ok provider) :
    (images ≠ [] → supports_feature provider "images" = false →
      stream_response s user_message images documents knowledge_parts providerChunks providerErr
        = ⟨s, [], some (.valueError (imagesCapMsg mc.name))⟩)
  ∧ (documents ≠ [] → supports_feature provider "documents" = false →
     (images = [] ∨ supports_feature provider "images" = true) →
      stream_response s user_message images documents knowledge_parts providerChunks providerErr
        = ⟨s, [], some (.valueError (documentsCapMsg mc.name))⟩) := by
  constructor
  · intro hi hsup
    unfold stream_response
    rw [hmc]
    simp only [hp]
    rw [if_pos ⟨by simp [ne_nil_isEmpty_false hi], hsup⟩]
  · intro hd hsup hio
    have hgate1 : ¬(¬images.isEmpty = true ∧ supports_feature provider "images" = false) := by
      rcases hio with hio | hio
      · subst hio
        intro hc
        exact hc.1 rfl
      · intro hc
        rw [hio] at hc
        exact absurd hc.2 (by simp)
    unfold stream_response
    rw [hmc]
    simp only [hp]
    rw [if_neg hgate1, if_pos ⟨by simp [ne_nil_isEmpty_false hd], hsup⟩]

/-- Witness for C4: an image sent to a model with `supports_images=false`. -/
theorem claim_C4_capability_gate_witness :
    stream_response demoState "look" [[0, 1]] [] [] [doneChunk] none
      = ⟨demoState, [], some (.valueError (imagesCapMsg "Local"))⟩ :=
  (claim_C4_capability_gate demoState "look" [[0, 1]] [] [] [doneChunk] none
    localModel (.openaiCompat localModel) rfl rfl).1 (by decide) rfl

/-- C5: a provider exception raised mid-stream (after gating passed)
propagates to the caller and leaves the history grown by exactly the user
turn — no assistant turn, partial or otherwise. -/
theorem claim_C5_orphaned_user_turn (s : ChatState) (user_message : String)
    (images : List (List Nat)) (documents : List (String × List Nat))
    (knowledge_parts : List (String × String)) (providerChunks : List StreamChunk)
    (e : PyErr) (mc : ModelConfig) (provider : Provider) (agent : AgentConfig)
    (hmc : dictGet s.config.models s.current_model_key = some mc)
    (hp : create_provider mc = .ok provider)
    (hgi : images = [] ∨ supports_feature provider "images" = true)
    (hgd : documents = [] ∨ supports_feature provider "documents" = true)
    (ha : dictGet s.config.agents s.current_agent_key = some agent) :
    (stream_response s user_message images documents knowledge_parts providerChunks
        (some e)).error = some e
  ∧ (stream_response s user_message images documents knowledge_parts providerChunks
        (some e)).state.messages
      = s.messages ++
        [{ role := .user
           content := user_message
           images := images
           documents := documents }]
  ∧ (stream_response s user_message images documents knowledge_parts providerChunks
        (some e)).state.messages.length = s.messages.length + 1 := by
  rw [stream_response_after_gates s user_message images documents knowledge_parts
    providerChunks (some e) mc provider agent hmc hp hgi hgd ha]
  refine ⟨rfl, rfl, ?_⟩
  simp [add_message]

/-- Witness for C5: a one-chunk stream followed by an exception. -/
theorem claim_C5_orphaned_user_turn_witness :
    (stream_response demoState "hi" [] [] [] [{ content := "He" }]
        (some (.providerRaised ⟨.connectionError, "boom"⟩))).error
      = some (.providerRaised ⟨.connectionError, "boom"⟩)
  ∧ (stream_response demoState "hi" [] [] [] [{ content := "He" }]
        (some (.providerRaised ⟨.connectionError, "boom"⟩))).state.messages.length = 0 + 1 :=
  have h := claim_C5_orphaned_user_turn demoState "hi" [] [] [] [{ content := "He" }]
    (.providerRaised ⟨.connectionError, "boom"⟩) localModel (.openaiCompat localModel)
    defaultAgent rfl rfl (Or.inl rfl) (Or.inl rfl) rfl
  ⟨h.1, h.2.2⟩

/-- C6 counterexample: one `stream_response` call that completes without
error but whose stream carried no visible content (a bare `done` chunk)
leaves a history of length 1, not 2 — `stream_response` appends an assistant
turn only when the accumulated visible content is non-empty
(`if assistant_message:` in chat.py line 404), so "N error-free calls give
2N messages" fails as stated. -/
theorem claim_C6_counterexample :
    (stream_response demoState "Hello" [] [] [] [doneChunk] none).error = none
  ∧ (stream_response demoState "Hello" [] [] [] [doneChunk] none).state.messages.length = 1 := by
  constructor
  · rfl
  · rfl

/-- C6 (amended): after N `stream_response` calls that each complete without
error **and each accumulate non-empty visible content**, the history holds
exactly 2N messages — each call's user turn followed by its assistant turn —
alternating in role and starting with a user message. -/
theorem claim_C6_amended_history (s : ChatState) (calls : List CallSpec)
    (mc : ModelConfig) (provider : Provider) (agent : AgentConfig)
    (hmc : dictGet s.config.models s.current_model_key = some mc)
    (hp : create_provider mc = .ok provider)
    (ha : dictGet s.config.agents s.current_agent_key = some agent)
    (hempty : s.messages = [])
    (hne : ∀ c ∈ calls, accumContent c.chunks ≠ "") :
    (runCalls s calls).messages = turnsOf calls
  ∧ (runCalls s calls).messages.length = 2 * calls.length
  ∧ alternatesFrom .user ((runCalls s calls).messages.map (fun m => m.role)) = true := by
  have h := runCalls_spec calls s mc provider agent hmc hp ha hne
  rw [h, hempty]
  exact ⟨by simp, by simp [turnsOf_length], by simpa using turnsOf_alternates calls⟩

/-- Witness for the amended C6 at one concrete call. -/
theorem claim_C6_amended_history_witness :
    (runCalls demoState [⟨"hi", [], [{ content := "Hello" }]⟩]).messages.length = 2 * 1
  ∧ alternatesFrom .user
      ((runCalls demoState [⟨"hi", [], [{ content := "Hello" }]⟩]).messages.map
        (fun m => m.role)) = true :=
  have h := claim_C6_amended_history demoState [⟨"hi", [], [{ content := "Hello" }]⟩]
    localModel (.openaiCompat localModel) defaultAgent rfl rfl rfl rfl (by decide)
  ⟨h.2.1, h.2.2⟩

/-- C7: the Bedrock client-error mapping is total and deterministic — the
raised error kind depends on the vendor code alone; `ThrottlingException`
maps to `RateLimitError`, `UnrecognizedClientException` /
`InvalidSignatureException` and `AccessDeniedException` /
`ResourceNotFoundException` map to `AuthenticationError`, and every other
code maps to `ProviderError` carrying the vendor message. -/
theorem claim_C7_error_mapping (name model_id code message message' : String) :
    (code = "ThrottlingException" →
      (map_client_error name model_id code message).kind = .rateLimitError)
  ∧ (code = "UnrecognizedClientException" ∨ code = "InvalidSignatureException" →
      (map_client_error name model_id code message).kind = .authenticationError)
  ∧ (code = "AccessDeniedException" ∨ code = "ResourceNotFoundException" →
      (map_client_error name model_id code message).kind = .authenticationError)
  ∧ (code ≠ "UnrecognizedClientException" → code ≠ "InvalidSignatureException" →
     code ≠ "ThrottlingException" → code ≠ "AccessDeniedException" →
     code ≠ "ResourceNotFoundException" →
      map_client_error name model_id code message =
        { kind := .providerError, msg := "Bedrock error: " ++ message })
  ∧ (map_client_error name model_id code message).kind =
      (map_client_error name model_id code message').kind := by
  unfold map_client_error
  refine ⟨?_, ?_, ?_, ?_, ?_⟩
  · intro hc
    subst hc
    rw [if_neg (by decide), if_pos (by decide)]
  · rintro (hc | hc) <;> subst hc <;> rw [if_pos (by decide)]
  · rintro (hc | hc) <;> subst hc <;>
      rw [if_neg (by decide), if_neg (by decide), if_pos (by decide)]
  · intro h1 h2 h3 h4 h5
    simp [h1, h2, h3, h4, h5]
  · split_ifs <;> rfl

/-- Witness for C7 at concrete codes. -/
theorem claim_C7_error_mapping_witness :
    (map_client_error "Test Claude" "anthropic.claude-3" "ThrottlingException" "Rate exceeded").kind
      = .rateLimitError :=
  (claim_C7_error_mapping "Test Claude" "anthropic.claude-3" "ThrottlingException"
    "Rate exceeded" "other message").1 rfl

/-- C8: switching to an unknown model or agent key raises a configuration
error naming the available keys and leaves the current selection (and the
whole service state) unchanged. -/
theorem claim_C8_switch_atomic (s : ChatState) (model_key agent_key : String)
    (hm : dictGet s.config.models model_key = none)
    (ha : dictGet s.config.agents agent_key = none) :
    set_model s model_key =
      (s, some (.modelNotFound model_key (s.config.models.map (fun p => p.1))))
  ∧ (set_model s model_key).1.current_model_key = s.current_model_key
  ∧ set_agent s agent_key =
      (s, some (.agentNotFound agent_key (s.config.agents.map (fun p => p.1))))
  ∧ (set_agent s agent_key).1.current_agent_key = s.current_agent_key := by
  refine ⟨?_, ?_, ?_, ?_⟩ <;> simp [set_model, set_agent, hm, ha]

/-- Witness for C8 at a concrete one-model configuration and unknown keys. -/
theorem claim_C8_switch_atomic_witness :
    set_model { config := ⟨[], []⟩, current_model_key := "m", current_agent_key := "a" } "nope" =
      ({ config := ⟨[], []⟩, current_model_key := "m", current_agent_key := "a" },
       some (.modelNotFound "nope" []))
  ∧ (set_model { config := ⟨[], []⟩, current_model_key := "m", current_agent_key := "a" }
      "nope").1.current_model_key = "m" := by
  have h := claim_C8_switch_atomic
    { config := ⟨[], []⟩, current_model_key := "m", current_agent_key := "a" }
    "nope" "ghost" (by rfl) (by rfl)
  exact ⟨h.1, h.2.1⟩

/-- C9: image MIME sniffing — a buffer starting with the PNG signature is
detected as "png", the JPEG SOI marker as "jpeg", a GIF87a/GIF89a header as
"gif", a RIFF header with WEBP at offset 8 as "webp", and every other buffer
defaults to "png". -/
theorem claim_C9_image_sniffing (image_data : List Nat) :
    (pngSig.isPrefixOf image_data = true → detect_image_format image_data = "png")
  ∧ (jpegSig.isPrefixOf image_data = true → detect_image_format image_data = "jpeg")
  ∧ (gif87Sig.isPrefixOf image_data = true ∨ gif89Sig.isPrefixOf image_data = true →
      detect_image_format image_data = "gif")
  ∧ (riffSig.isPrefixOf image_data = true ∧ (image_data.drop 8).take 4 = webpSig →
      detect_image_format image_data = "webp")
  ∧ (pngSig.isPrefixOf image_data = false → jpegSig.isPrefixOf image_data = false →
     gif87Sig.isPrefixOf image_data = false → gif89Sig.isPrefixOf image_data = false →
     ¬(riffSig.isPrefixOf image_data = true ∧ (image_data.drop 8).take 4 = webpSig) →
      detect_image_format image_data = "png") := by
  refine ⟨?_, ?_, ?_, ?_, ?_⟩
  · intro h
    simp [detect_image_format, h]
  · intro h
    have hpng : pngSig.isPrefixOf image_data = false :=
      prefix_head_ne [0xD8, 0xFF] _ h (by decide)
    simp [detect_image_format, h, hpng]
  · rintro (h | h) <;>
    · have hpng : pngSig.isPrefixOf image_data = false :=
        prefix_head_ne _ [0x50, 0x4E, 0x47, 0x0D, 0x0A, 0x1A, 0x0A] h (by decide)
      have hjpeg : jpegSig.isPrefixOf image_data = false :=
        prefix_head_ne _ [0xD8, 0xFF] h (by decide)
      simp [detect_image_format, h, hpng, hjpeg]
  · rintro ⟨h, hslice⟩
    have hpng : pngSig.isPrefixOf image_data = false :=
      prefix_head_ne _ [0x50, 0x4E, 0x47, 0x0D, 0x0A, 0x1A, 0x0A] h (by decide)
    have hjpeg : jpegSig.isPrefixOf image_data = false :=
      prefix_head_ne _ [0xD8, 0xFF] h (by decide)
    have hg87 : gif87Sig.isPrefixOf image_data = false :=
      prefix_head_ne _ [0x49, 0x46, 0x38, 0x37, 0x61] h (by decide)
    have hg89 : gif89Sig.isPrefixOf image_data = false :=
      prefix_head_ne _ [0x49, 0x46, 0x38, 0x39, 0x61] h (by decide)
    simp [detect_image_format, h, hslice, hpng, hjpeg, hg87, hg89]
  · intro h1 h2 h3 h4 h5
    simp only [detect_image_format, h1, h2, h3, h4]
    simp only [Bool.false_eq_true, if_false, or_self]
    rw [if_neg]
    intro hc
    exact h5 ⟨hc.1, hc.2⟩

/-- Witness for C9 at a concrete JPEG buffer. -/
theorem claim_C9_image_sniffing_witness :
    detect_image_format [0xFF, 0xD8, 0xFF, 0x00, 0x10] = "jpeg" :=
  (claim_C9_image_sniffing [0xFF, 0xD8, 0xFF, 0x00, 0x10]).2.1 (by decide)

/-- C10: `get_history` returns a defensive copy — the returned list object
holds the same elements as the internal history, is a different object, and
appending to it or removing from it leaves the service's internal history and
`message_count` unchanged. -/
theorem claim_C10_history_copy (h : ListHeap) (svc : ChatServiceRefs) (m : Message) (i : Nat)
    (hv : svc.history < h.cells.length) :
    heapGet (get_history h svc).1 (get_history h svc).2 = heapGet h svc.history
  ∧ (get_history h svc).2 ≠ svc.history
  ∧ heapGet (list_append (get_history h svc).1 (get_history h svc).2 m) svc.history
      = heapGet h svc.history
  ∧ message_count (list_append (get_history h svc).1 (get_history h svc).2 m) svc
      = message_count h svc
  ∧ heapGet (list_remove (get_history h svc).1 (get_history h svc).2 i) svc.history
      = heapGet h svc.history
  ∧ message_count (list_remove (get_history h svc).1 (get_history h svc).2 i) svc
      = message_count h svc := by
  have key : ∀ w, heapGet (heapSet ⟨h.cells ++ [heapGet h svc.history]⟩ h.cells.length w)
      svc.history = heapGet h svc.history := by
    intro w
    simp only [heapGet, heapSet, List.getD, List.get?_eq_getElem?]
    rw [List.getElem?_set_ne (show h.cells.length ≠ svc.history by omega),
      List.getElem?_append, if_pos hv]
  refine ⟨?_, ?_, ?_, ?_, ?_, ?_⟩
  · simp only [get_history, heapAlloc, heapGet, List.getD, List.get?_eq_getElem?]
    rw [List.getElem?_concat_length]
    rfl
  · simp only [get_history, heapAlloc]
    omega
  · exact key _
  · simp only [message_count]
    rw [list_append, get_history, heapAlloc, key]
  · exact key _
  · simp only [message_count]
    rw [list_remove, get_history, heapAlloc, key]

/-- Witness for C10 at a concrete one-message heap. -/
theorem claim_C10_history_copy_witness :
    heapGet (get_history ⟨[[{ role := .user, content := "hi" }]]⟩ ⟨0⟩).1
        (get_history ⟨[[{ role := .user, content := "hi" }]]⟩ ⟨0⟩).2
      = heapGet ⟨[[{ role := .user, content := "hi" }]]⟩ 0
  ∧ message_count
      (list_append (get_history ⟨[[{ role := .user, content := "hi" }]]⟩ ⟨0⟩).1
        (get_history ⟨[[{ role := .user, content := "hi" }]]⟩ ⟨0⟩).2
        { role := .assistant, content := "yo" }) ⟨0⟩
      = message_count ⟨[[{ role := .user, content := "hi" }]]⟩ ⟨0⟩ := by
  have h := claim_C10_history_copy ⟨[[{ role := .user, content := "hi" }]]⟩ ⟨0⟩
    { role := .assistant, content := "yo" } 0 (by decide)
  exact ⟨h.1, h.2.2.2.1⟩

end AiChat
